import Mathlib

/-!
Verification development for the MISP DDoS CLI repository.

The Python sources are shallowly embedded: each `def` below translates one
function of the repository (or, where the repository delegates to the Python
standard library, a model of the library routine it calls, marked as such in
the doc comment).  Dictionaries become association lists, exceptions become
`Except`, and the remote MISP API is abstracted as a function argument.
-/

namespace MispDdos

/-- Substring containment on strings, stated on the underlying character
lists.  `strContains s pat` says `pat` occurs contiguously inside `s`. -/
def strContains (s pat : String) : Prop := pat.data <:+: s.data

instance (s pat : String) : Decidable (strContains s pat) := by
  unfold strContains; infer_instance

/-- Splitting a character list at every character satisfying `p`, keeping
empty segments, as Python `str.split(sep)` does for a one-character
separator. -/
def splitOnPred (p : Char → Bool) : List Char → List (List Char)
  | [] => [[]]
  | c :: cs =>
    let r := splitOnPred p cs
    if p c then [] :: r
    else
      match r with
      | [] => [[c]]
      | h :: t => (c :: h) :: t

/-- Python `s.split(sep)` for a one-character separator (every separator used
by this code base is a single character). -/
def strSplit (s : String) (sep : Char) : List String :=
  (splitOnPred (fun c => c = sep) s.data).map (fun l => ⟨l⟩)

/-- Python `s.strip()` (whitespace model: the ASCII whitespace characters
recognised by `Char.isWhitespace`). -/
def pyStrip (s : String) : String :=
  ⟨((s.data.dropWhile Char.isWhitespace).reverse.dropWhile Char.isWhitespace).reverse⟩

/-- ASCII lowering of one character, modelling `str.lower()` on the ASCII
range used by this code base. -/
def lowerChar (c : Char) : Char :=
  if 'A' ≤ c && c ≤ 'Z' then Char.ofNat (c.toNat + 32) else c

/-- Python `s.lower()`. -/
def pyLower (s : String) : String := ⟨s.data.map lowerChar⟩

/-- Python `s.startswith(pre)` for a one-character head. -/
def startsWithChar (s : String) (c : Char) : Bool :=
  match s.data with
  | [] => false
  | d :: _ => d = c

/-- Python `c in s` for one character. -/
def containsChar (s : String) (c : Char) : Bool := s.data.any (fun d => d = c)

/-- Joining a list of strings with a separator; models Python's
`sep.join(parts)`. -/
def joinWith (sep : String) : List String → String
  | [] => ""
  | [s] => s
  | s :: rest => s ++ sep ++ joinWith sep rest

/-- Newline joining, as in `"\n".join(errors)` in
`DDoSEventValidator.validate_row`. -/
def joinLines (l : List String) : String := joinWith "\n" l

/-- Value of a run of ASCII decimal digits, most significant first. -/
def digitsToNat (acc : Nat) : List Char → Nat
  | [] => acc
  | c :: cs => digitsToNat (acc * 10 + (c.toNat - 48)) cs

/-- Tail of Python `int(str)` digit parsing: after an initial digit, further
digits may be separated by single underscores. -/
def pyDigitsAux (acc : Nat) : List Char → Option Nat
  | [] => some acc
  | c :: cs =>
    if c.isDigit then pyDigitsAux (acc * 10 + (c.toNat - 48)) cs
    else if c = '_' then
      match cs with
      | [] => none
      | d :: cs2 =>
        if d.isDigit then pyDigitsAux (acc * 10 + (d.toNat - 48)) cs2 else none
    else none

/-- Nonempty digit run with optional single underscores between digits. -/
def pyDigits : List Char → Option Nat
  | [] => none
  | c :: cs => if c.isDigit then pyDigitsAux (c.toNat - 48) cs else none

/-- Models Python's built-in `int(s)` on a string argument (as used by
`DDoSEventValidator._validate_port`): surrounding whitespace is stripped, an
optional sign precedes a nonempty run of ASCII decimal digits in which single
underscores may separate digits; anything else raises `ValueError`, modelled
as `none`. -/
def pyInt (s : String) : Option Int :=
  match (pyStrip s).data with
  | '+' :: rest => (pyDigits rest).map Int.ofNat
  | '-' :: rest => (pyDigits rest).map (fun n => -(Int.ofNat n))
  | rest => (pyDigits rest).map Int.ofNat

/-- Translation of `DDoSEventValidator._validate_port` from
`src/csv_processor.py`: `int(port)` and then `1 <= port_int <= 65535`, with
`ValueError` mapped to `False`. -/
def validate_port (port : String) : Bool :=
  match pyInt port with
  | some n => decide (1 ≤ n ∧ n ≤ 65535)
  | none => false

/-- One dotted-quad component, per `ipaddress._parse_octet`: one to three
ASCII digits, value at most 255, no leading zero. -/
def validOctet (p : String) : Bool :=
  p.length ≥ 1 && p.length ≤ 3 && p.data.all Char.isDigit &&
    digitsToNat 0 p.data ≤ 255 &&
    (p.length = 1 || p.data.head? ≠ some '0')

/-- Models `ipaddress.IPv4Address` acceptance: four octets separated by
dots. -/
def isValidIPv4 (s : String) : Bool :=
  let parts := strSplit s '.'
  parts.length = 4 && parts.all validOctet

/-- An IPv6 hextet: one to four hexadecimal digits. -/
def validHextet (p : String) : Bool :=
  p.length ≥ 1 && p.length ≤ 4 &&
    p.data.all (fun c => c.isDigit || ('a' ≤ c && c ≤ 'f') || ('A' ≤ c && c ≤ 'F'))

/-- Models `ipaddress.IPv6Address._ip_int_from_string` (without scope id):
colon-separated hextets, at most one `::` run, optional embedded IPv4 in the
last position. -/
def isValidIPv6Core (s : String) : Bool :=
  let parts0 := strSplit s ':'
  if parts0.length < 3 then false else
  let expand : Option (List String) :=
    match parts0.getLast? with
    | some last =>
      if containsChar last '.' then
        if isValidIPv4 last then some (parts0.dropLast ++ ["0", "0"]) else none
      else some parts0
    | none => some parts0
  match expand with
  | none => false
  | some parts =>
    if parts.length > 9 then false else
    let n := parts.length
    let interiorEmpties :=
      (List.range n).filter (fun i => 1 ≤ i && i ≤ n - 2 && parts.getD i "x" = "")
    match interiorEmpties with
    | [] =>
      n = 8 && parts.all validHextet
    | [k] =>
      let headEmpty := parts.getD 0 "x" = ""
      let lastEmpty := parts.getD (n - 1) "x" = ""
      if headEmpty && k ≠ 1 then false else
      if lastEmpty && n - k - 1 ≠ 1 then false else
      let hi := if headEmpty then k - 1 else k
      let lo := if lastEmpty then n - k - 2 else n - k - 1
      if hi + lo ≥ 8 then false else
      (parts.take hi).all validHextet && (parts.drop (n - lo)).all validHextet
    | _ => false

/-- Models `ipaddress.IPv6Address` acceptance including an optional nonempty
scope id after a single percent sign. -/
def isValidIPv6 (s : String) : Bool :=
  match strSplit s '%' with
  | [a] => isValidIPv6Core a
  | [a, z] => isValidIPv6Core a && z ≠ ""
  | _ => false

/-- Models `ipaddress.ip_address(s)` acceptance: IPv4 first, then IPv6. -/
def isValidIP (s : String) : Bool := isValidIPv4 s || isValidIPv6 s

/-- Translation of `DDoSEventValidator._validate_ip_address` from
`src/csv_processor.py`: `ipaddress.ip_address(ip.strip())`, `ValueError`
mapped to `False`. -/
def validate_ip_address (ip : String) : Bool := isValidIP (pyStrip ip)

/-- Days in a month of the proleptic Gregorian calendar used by
`datetime.date`. -/
def daysInMonth (y m : Nat) : Nat :=
  if m = 2 then
    if y % 4 = 0 && (y % 100 ≠ 0 || y % 400 = 0) then 29 else 28
  else if m = 4 || m = 6 || m = 9 || m = 11 then 30
  else 31

/-- A `%Y` field in `datetime.strptime`: exactly four ASCII digits. -/
def validYearStr (p : String) : Bool :=
  p.length = 4 && p.data.all Char.isDigit

/-- A `%m` field: one digit 1-9 or two digits with value 1 to 12. -/
def validMonthStr (p : String) : Bool :=
  p.data.all Char.isDigit &&
    ((p.length = 1 && 1 ≤ digitsToNat 0 p.data) ||
     (p.length = 2 && 1 ≤ digitsToNat 0 p.data && digitsToNat 0 p.data ≤ 12))

/-- A `%d` field: one digit 1-9 or two digits with value 1 to 31. -/
def validDayStr (p : String) : Bool :=
  p.data.all Char.isDigit &&
    ((p.length = 1 && 1 ≤ digitsToNat 0 p.data) ||
     (p.length = 2 && 1 ≤ digitsToNat 0 p.data && digitsToNat 0 p.data ≤ 31))

/-- A two-digit-capped time field (`%H`, `%M`, `%S` after the `datetime`
constructor re-check): one digit, or two digits with value at most `hi`. -/
def validTimeField (p : String) (hi : Nat) : Bool :=
  p.data.all Char.isDigit &&
    (p.length = 1 || (p.length = 2 && digitsToNat 0 p.data ≤ hi))

/-- Match of `%Y-%m-%d` against `datetime.strptime` followed by the
`datetime` constructor's range checks (year at least 1, day within the
month). -/
def matchesDateOnly (s : String) : Bool :=
  match strSplit s '-' with
  | [y, m, d] =>
    validYearStr y && validMonthStr m && validDayStr d &&
      1 ≤ digitsToNat 0 y.data &&
      digitsToNat 0 d.data ≤ daysInMonth (digitsToNat 0 y.data) (digitsToNat 0 m.data)
  | _ => false

/-- Match of `%H:%M:%S` with the constructor's bounds (hour at most 23,
minute and second at most 59). -/
def matchesTimeOnly (s : String) : Bool :=
  match strSplit s ':' with
  | [h, mi, se] =>
    validTimeField h 23 && validTimeField mi 59 && validTimeField se 59
  | _ => false

/-- Translation of `DDoSEventValidator._validate_date` from
`src/csv_processor.py`: the stripped string must match `%Y-%m-%d` or
`%Y-%m-%d %H:%M:%S` under `datetime.strptime` (a whitespace in the format
matches a nonempty whitespace run). -/
def validate_date (date_str : String) : Bool :=
  let t := pyStrip date_str
  matchesDateOnly t ||
    (match ((splitOnPred Char.isWhitespace t.data).map (fun l => (⟨l⟩ : String))).filter (· ≠ "") with
     | [d, tm] => t.data.any Char.isWhitespace && matchesDateOnly d && matchesTimeOnly tm
     | _ => false)

instance {ε α : Type} [DecidableEq ε] [DecidableEq α] : DecidableEq (Except ε α) := fun x y =>
  match x, y with
  | .ok a, .ok b => decidable_of_iff (a = b) (by simp)
  | .error a, .error b => decidable_of_iff (a = b) (by simp)
  | .ok _, .error _ => isFalse (by simp)
  | .error _, .ok _ => isFalse (by simp)

/-- A CSV row as handed to the validator: a mapping from column name to cell
string, embedded as an association list (first binding wins, as in a Python
dict there is at most one binding per key). -/
def Row : Type := List (String × String)

instance : DecidableEq Row := by unfold Row; infer_instance

/-- Membership test `field in row`. -/
def rowMem (row : Row) (k : String) : Bool := row.any (fun p => p.1 = k)

/-- Lookup `row.get(k, d)`. -/
def rowGetD (row : Row) (k d : String) : String :=
  ((row.find? (fun p => p.1 = k)).map Prod.snd).getD d

/-- Lookup `row[k]` at a key known to be present (defaults to the empty
string on the unreachable missing case). -/
def rowD (row : Row) (k : String) : String := rowGetD row k ""

/-- Python list repr of a list of strings, as interpolated into f-strings. -/
def pyListRepr (l : List String) : String :=
  "[" ++ joinWith ", " (l.map (fun s => "\x27" ++ s ++ "\x27")) ++ "]"

def REQUIRED_FIELDS : List String := ["date", "event_name", "attacker_ips", "annotation_text"]

def VALID_TLP_LEVELS : List String := ["clear", "green", "amber", "red"]

def MAX_EVENT_NAME_LENGTH : Nat := 255

def MAX_DESCRIPTION_LENGTH : Nat := 5000

def MAX_ATTACKER_IPS : Nat := 1000

/-- Semicolon-splitting of a multi-valued cell:
`[x.strip() for x in s.split(";") if x.strip()]`. -/
def splitSemi (s : String) : List String :=
  ((strSplit s ';').map pyStrip).filter (· ≠ "")

/-- The normalized event record returned by `validate_row` (the dict literal
at the end of `DDoSEventValidator.validate_row`); an empty optional list is
returned as Python `None`, embedded as `none`. -/
structure EventData where
  event_name : String
  event_date : String
  attacker_ips : List String
  destination_ips : Option (List String)
  destination_ports : Option (List Int)
  annotation_text : String
  tlp : String
deriving Repr, DecidableEq

/-- Phase one of `validate_row`: the missing-required-field messages, in
`REQUIRED_FIELDS` order. -/
def requiredFieldErrors (row : Row) (row_number : Nat) : List String :=
  REQUIRED_FIELDS.filterMap (fun field =>
    if ¬ rowMem row field || pyStrip (rowD row field) = "" then
      some ("Row " ++ toString row_number ++ ": Missing required field \x27" ++ field ++ "\x27")
    else none)

/-- Phase two of `validate_row`: the field-level error messages collected
after the required-field gate has passed, in the order the Python code
appends them. -/
def fieldErrors (row : Row) (row_number : Nat) : List String :=
  let rn := "Row " ++ toString row_number ++ ": "
  let event_name := pyStrip (rowD row "event_name")
  let e1 := if event_name.length > MAX_EVENT_NAME_LENGTH then
      [rn ++ "Event name exceeds 255 characters"] else []
  let annotation_text := pyStrip (rowD row "annotation_text")
  let e2 := if annotation_text.length > MAX_DESCRIPTION_LENGTH then
      [rn ++ "Annotation text exceeds 5000 characters"] else []
  let date_str := pyStrip (rowD row "date")
  let e3 := if ¬ validate_date date_str then
      [rn ++ "Invalid date format. Use YYYY-MM-DD or YYYY-MM-DD HH:MM:SS"] else []
  let attacker_ips := splitSemi (pyStrip (rowD row "attacker_ips"))
  let e4 := if attacker_ips = [] then [rn ++ "No attacker IPs provided"]
    else if attacker_ips.length > MAX_ATTACKER_IPS then
      [rn ++ "Too many attacker IPs (max 1000)"] else []
  let e5 := attacker_ips.filterMap (fun ip =>
    if ¬ validate_ip_address ip then
      some (rn ++ "Invalid attacker IP address \x27" ++ ip ++ "\x27") else none)
  let hasDest := rowMem row "destination_ips" && pyStrip (rowD row "destination_ips") ≠ ""
  let destination_ips := if hasDest then splitSemi (pyStrip (rowD row "destination_ips")) else []
  let e6 := if hasDest && destination_ips.length > MAX_ATTACKER_IPS then
      [rn ++ "Too many destination IPs (max 1000)"] else []
  let e7 := destination_ips.filterMap (fun ip =>
    if ¬ validate_ip_address ip then
      some (rn ++ "Invalid destination IP address \x27" ++ ip ++ "\x27") else none)
  let hasPorts := rowMem row "destination_ports" && pyStrip (rowD row "destination_ports") ≠ ""
  let portStrs := if hasPorts then splitSemi (pyStrip (rowD row "destination_ports")) else []
  let e8 := portStrs.filterMap (fun p =>
    if ¬ validate_port p then
      some (rn ++ "Invalid destination port \x27" ++ p ++ "\x27") else none)
  let tlp := pyLower (pyStrip (rowGetD row "tlp" "green"))
  let e9 := if tlp ≠ "" && ¬ VALID_TLP_LEVELS.any (fun v => v = tlp) then
      [rn ++ "Invalid TLP level \x27" ++ tlp ++ "\x27. Must be one of " ++ pyListRepr VALID_TLP_LEVELS]
    else []
  e1 ++ e2 ++ e3 ++ e4 ++ e5 ++ e6 ++ e7 ++ e8 ++ e9

/-- The record built by the trailing dict literal of `validate_row`, for a
row that passed both validation phases. -/
def buildEventData (row : Row) : EventData :=
  let attacker_ips := splitSemi (pyStrip (rowD row "attacker_ips"))
  let hasDest := rowMem row "destination_ips" && pyStrip (rowD row "destination_ips") ≠ ""
  let destination_ips := if hasDest then splitSemi (pyStrip (rowD row "destination_ips")) else []
  let hasPorts := rowMem row "destination_ports" && pyStrip (rowD row "destination_ports") ≠ ""
  let portStrs := if hasPorts then splitSemi (pyStrip (rowD row "destination_ports")) else []
  let destination_ports := portStrs.filterMap (fun p =>
    if validate_port p then pyInt p else none)
  let tlp := pyLower (pyStrip (rowGetD row "tlp" "green"))
  { event_name := pyStrip (rowD row "event_name")
    event_date := pyStrip (rowD row "date")
    attacker_ips := attacker_ips
    destination_ips := if destination_ips = [] then none else some destination_ips
    destination_ports := if destination_ports = [] then none else some destination_ports
    annotation_text := pyStrip (rowD row "annotation_text")
    tlp := if tlp = "" then "green" else tlp }

/-- Translation of `DDoSEventValidator.validate_row` from
`src/csv_processor.py`.  The second component of the result is the row
mapping as it stands when the call finishes: the Python body only ever reads
from `row`, so the translation threads it through unchanged. -/
def validate_row (row : Row) (row_number : Nat) : Except String EventData × Row :=
  if requiredFieldErrors row row_number ≠ [] then
    (.error (joinLines (requiredFieldErrors row row_number)), row)
  else if fieldErrors row row_number ≠ [] then
    (.error (joinLines (fieldErrors row row_number)), row)
  else (.ok (buildEventData row), row)

/-- Result dictionary of `CSVProcessor.process_csv`. -/
structure CsvResult where
  valid_events : List EventData
  invalid_rows : List (Nat × String)
  total_rows : Nat
deriving Repr, DecidableEq

/-- Comment stripping in `CSVProcessor.process_csv`: keep the lines that are
nonempty after stripping and do not start with `#`. -/
def content_lines (lines : List String) : List String :=
  lines.filter (fun l => pyStrip l ≠ "" && ¬ (startsWithChar (pyStrip l) '#'))

/-- Python set repr of the `missing_required` set as interpolated into the
schema-error f-string (rendered here in `REQUIRED_FIELDS` order; CPython
iterates the set in an unspecified order but over the same elements). -/
def pySetRepr (l : List String) : String :=
  "\x7b" ++ joinWith ", " (l.map (fun s => "\x27" ++ s ++ "\x27")) ++ "\x7d"

/-- The required columns absent from the header:
`set(REQUIRED_FIELDS) - set(fieldnames)`, kept in `REQUIRED_FIELDS` order. -/
def missing_required (fieldnames : List String) : List String :=
  REQUIRED_FIELDS.filter (fun f => ¬ fieldnames.any (fun g => g = f))

/-- One data line turned into a row mapping, as `csv.DictReader` does for
unquoted cells: zip the header fieldnames with the comma-split cells (a
short line leaves the surplus keys unbound, standing for the reader's `None`
rest value). -/
def makeRow (fieldnames : List String) (line : String) : Row :=
  fieldnames.zip (strSplit line ',')

/-- The row loop of `CSVProcessor.process_csv`: validate each row in order,
numbering from 2; a failure is appended to `invalid_rows` and, when
`skip_invalid` is false, re-raised (aborting with that row's error). -/
def process_rows (skip_invalid : Bool) :
    List Row → Nat → List EventData → List (Nat × String) → Nat → Except String CsvResult
  | [], _, valid, invalid, total => .ok ⟨valid, invalid, total⟩
  | row :: rest, idx, valid, invalid, total =>
    match (validate_row row idx).1 with
    | .ok ev => process_rows skip_invalid rest (idx + 1) (valid ++ [ev]) invalid (total + 1)
    | .error msg =>
      if skip_invalid then
        process_rows skip_invalid rest (idx + 1) valid (invalid ++ [(idx, msg)]) (total + 1)
      else .error msg

/-- Translation of `CSVProcessor.process_csv` from `src/csv_processor.py`,
taken after the file-path checks: the file content is given as its list of
lines.  Comment and blank lines are stripped, the first remaining line is
the header, the header must contain every required column, and the data
lines are validated row by row. -/
def process_csv (lines : List String) (skip_invalid : Bool) : Except String CsvResult :=
  match content_lines lines with
  | [] => .error "CSV file has no headers"
  | header :: dataLines =>
    let fieldnames := strSplit header ','
    let missing := missing_required fieldnames
    if missing ≠ [] then
      .error ("CSV missing required columns: " ++ pySetRepr missing)
    else
      process_rows skip_invalid (dataLines.map (makeRow fieldnames)) 2 [] [] 0

/-- Python exceptions that travel through the client code, by class. -/
inductive PyError where
  | requestExc : String → PyError
  | pymispError : String → PyError
  | mispConnectionError : String → PyError
  | mispValidationError : String → PyError
  | mispClientError : String → PyError
  | typeError : String → PyError
  | otherError : String → PyError
deriving Repr, DecidableEq

/-- Python `str(e)` on a caught exception. -/
def errMessage : PyError → String
  | .requestExc m => m
  | .pymispError m => m
  | .mispConnectionError m => m
  | .mispValidationError m => m
  | .mispClientError m => m
  | .typeError m => m
  | .otherError m => m

/-- Membership in the `exceptions` tuple of `retry_with_backoff`:
`(requests.RequestException, PyMISPError)`. -/
def retryable : PyError → Bool
  | .requestExc _ => true
  | .pymispError _ => true
  | _ => false

/-- The `while` loop of the `retry_with_backoff` wrapper from
`src/misp_client.py`.  `call k` is the outcome of the wrapped function on
its `k`-th invocation (`k` counts prior failures); the second component of
the result is the list of back-off waits slept, in order.  The `rem = 0`
fall-through is Python's implicit `None` return after the loop, unreachable
for `max_attempts ≥ 1`. -/
def retryGo {α : Type} (call : Nat → Except PyError α) (max_attempts : Nat) (backoff_factor : ℚ) :
    Nat → Nat → Except PyError α × List ℚ
  | _, 0 => (.error (.otherError "implicit None return"), [])
  | attempt, rem + 1 =>
    match call attempt with
    | .ok a => (.ok a, [])
    | .error e =>
      if retryable e then
        if attempt + 1 ≥ max_attempts then
          (.error (.mispConnectionError
            ("Failed after " ++ toString max_attempts ++ " attempts: " ++ errMessage e)), [])
        else
          let wait := backoff_factor ^ (attempt + 1)
          let r := retryGo call max_attempts backoff_factor (attempt + 1) rem
          (r.1, wait :: r.2)
      else (.error e, [])

/-- Translation of the `retry_with_backoff(max_attempts, backoff_factor,
exceptions)` decorator from `src/misp_client.py`, applied to a wrapped call:
up to `max_attempts` invocations, retrying only exceptions in the tuple,
sleeping `backoff_factor ** attempt` between consecutive attempts, and
wrapping the final failure into `MISPConnectionError`. -/
def retry_with_backoff {α : Type} (call : Nat → Except PyError α) (max_attempts : Nat)
    (backoff_factor : ℚ) : Except PyError α × List ℚ :=
  retryGo call max_attempts backoff_factor 0 max_attempts

/-- The characters admitted by `MISPClient._sanitize_tag`'s regular
expression `^[a-zA-Z0-9:="\-_.]+$`. -/
def tagAllowedChar (c : Char) : Bool :=
  ('a' ≤ c && c ≤ 'z') || ('A' ≤ c && c ≤ 'Z') || ('0' ≤ c && c ≤ '9') ||
    c = ':' || c = '=' || c = '"' || c = '-' || c = '_' || c = '.'

/-- Translation of `MISPClient._sanitize_tag` from `src/misp_client.py`:
strip the tag, then require a nonempty match of the restricted character
class, raising `MISPValidationError` otherwise. -/
def sanitize_tag (tag : String) : Except String String :=
  let sanitized := pyStrip tag
  if sanitized.data ≠ [] ∧ sanitized.data.all tagAllowedChar then .ok sanitized
  else .error ("Tag contains invalid characters: " ++ tag)

def MITRE_ATTACK_PATTERN : String := "mitre-attack-pattern:T1498"

def MITRE_GALAXY_CLUSTER : String :=
  "misp-galaxy:mitre-attack-pattern=\"Network Denial of Service - T1498\""

/-- A MISP object attached to an event: object template name, attributes as
(type, value) pairs, comment. -/
structure MISPObjectModel where
  name : String
  attrs : List (String × String)
  comment : String
deriving Repr, DecidableEq

/-- The `MISPEvent` assembled by `create_ddos_event` before submission. -/
structure MISPEventModel where
  info : String
  date : String
  tags : List String
  objects : List MISPObjectModel
deriving Repr, DecidableEq

/-- The keyword arguments of `MISPClient.create_ddos_event`. -/
structure CreateArgs where
  event_name : String
  event_date : String
  attacker_ips : List String
  victim_ip : String
  victim_port : Int
  attacker_ports : Option (List Int)
  description : String
  tlp : String
  workflow_state : String
  attack_type : String
deriving Repr, DecidableEq

/-- Translation of `MISPClient._validate_port` (the submission-side variant:
the argument is already an `int`). -/
def client_validate_port (port : Int) : Bool := decide (1 ≤ port ∧ port ≤ 65535)

/-- Translation of `MISPClient._validate_ip_address`: `ipaddress.ip_address`
on the unstripped argument. -/
def client_validate_ip (ip : String) : Bool := isValidIP ip

/-- The input-validation prefix of `create_ddos_event`, in source order:
the first failing check's `MISPValidationError` message, or `none` when all
checks pass. -/
def createArgsError (a : CreateArgs) : Option String :=
  if pyStrip a.event_name = "" then some "Event name must be a non-empty string"
  else if pyStrip a.event_date = "" then some "Event date must be a non-empty string"
  else if a.attacker_ips = [] then some "Attacker IPs must be a non-empty list"
  else if ¬ client_validate_ip a.victim_ip then
    some ("Invalid victim IP address: " ++ a.victim_ip)
  else if ¬ client_validate_port a.victim_port then
    some ("Invalid victim port: " ++ toString a.victim_port)
  else
    match a.attacker_ips.find? (fun ip => ¬ client_validate_ip ip) with
    | some ip => some ("Invalid attacker IP address: " ++ ip)
    | none =>
      if ¬ VALID_TLP_LEVELS.any (fun v => v = pyLower a.tlp) then
        some ("Invalid TLP level: " ++ a.tlp ++ ". Must be one of " ++ pyListRepr VALID_TLP_LEVELS)
      else if ¬ ["direct-flood", "amplification", "both"].any (fun v => v = a.attack_type) then
        some ("Invalid attack type: " ++ a.attack_type ++ ". Must be one of " ++
          pyListRepr ["direct-flood", "amplification", "both"])
      else none

/-- The attacker `ip-port` objects: one per attacker IP, with the matching
attacker port attached when present and valid. -/
def attackerObjects (ips : List String) (ports : Option (List Int)) : List MISPObjectModel :=
  (List.range ips.length).map (fun idx =>
    let portAttr : List (String × String) :=
      match ports with
      | some ps =>
        if idx < ps.length && client_validate_port (ps.getD idx 0) then
          [("dst-port", toString (ps.getD idx 0))]
        else []
      | none => []
    ⟨"ip-port", ("ip", ips.getD idx "") :: portAttr, "Attacker IP " ++ toString (idx + 1)⟩)

/-- The event constructed inside the `try` block of `create_ddos_event`:
info, date, the six tags in attachment order, the optional annotation
object, the attacker objects and the victim object. -/
def build_event (a : CreateArgs) : MISPEventModel :=
  { info := a.event_name
    date := a.event_date
    tags := ["tlp:" ++ pyLower a.tlp,
             "information-security-indicators:incident-type=\"ddos\"",
             "misp-event-type:incident",
             MITRE_ATTACK_PATTERN,
             MITRE_GALAXY_CLUSTER,
             "workflow:state=new"]
    objects :=
      (if a.description ≠ "" then [⟨"annotation", [("text", a.description)], ""⟩] else []) ++
        attackerObjects a.attacker_ips a.attacker_ports ++
        [⟨"ip-port", [("ip", a.victim_ip), ("dst-port", toString a.victim_port)], "Victim IP and Port"⟩] }

/-- The success dictionary returned by `create_ddos_event`. -/
structure CreateResponse where
  event_id : Nat
  event_uuid : String
  event_name : String
  url : String
deriving Repr, DecidableEq

/-- Translation of `MISPClient.create_ddos_event` from `src/misp_client.py`.
`add_event` abstracts `self.client.add_event`: it returns the created
(id, uuid) or the exception the remote call raises.  A `PyMISPError` from
the remote call is wrapped into `MISPConnectionError`, any other exception
into `MISPClientError`, exactly as the two `except` clauses do. -/
def create_ddos_event (add_event : MISPEventModel → Except PyError (Nat × String))
    (url : String) (a : CreateArgs) : Except PyError CreateResponse :=
  match createArgsError a with
  | some m => .error (.mispValidationError m)
  | none =>
    match add_event (build_event a) with
    | .ok (id, uuid) =>
      .ok ⟨id, uuid, a.event_name, url ++ "/events/view/" ++ toString id⟩
    | .error (.pymispError m) =>
      .error (.mispConnectionError ("Failed to create event: " ++ m))
    | .error e =>
      .error (.mispClientError ("Unexpected error: " ++ errMessage e))

/-- The deployed submission entry point: `create_ddos_event` as decorated in
the source, `@retry_with_backoff(max_attempts=3)` with the default
`backoff_factor=2.0`.  `add_event k` is the remote behaviour on the `k`-th
invocation. -/
def submit_event (add_event : Nat → MISPEventModel → Except PyError (Nat × String))
    (url : String) (a : CreateArgs) : Except PyError CreateResponse × List ℚ :=
  retry_with_backoff (fun k => create_ddos_event (add_event k) url a) 3 2

/-- A Python value as stored in the event dictionaries the CSV pipeline
passes around. -/
inductive PyValue where
  | str : String → PyValue
  | int : Int → PyValue
  | list : List PyValue → PyValue
  | pynone : PyValue
deriving Repr

/-- An event dictionary: the unit handed from `process_csv` to
`upload_events` and splatted into `create_ddos_event(**event_data)`. -/
def EventDict : Type := List (String × PyValue)

/-- The dict literal returned by `DDoSEventValidator.validate_row`, with the
values of a given normalized record. -/
def eventDataDict (ev : EventData) : EventDict :=
  [("event_name", .str ev.event_name),
   ("event_date", .str ev.event_date),
   ("attacker_ips", .list (ev.attacker_ips.map .str)),
   ("destination_ips",
     match ev.destination_ips with
     | Option.none => .pynone
     | some l => .list (l.map .str)),
   ("destination_ports",
     match ev.destination_ports with
     | Option.none => .pynone
     | some l => .list (l.map .int)),
   ("annotation_text", .str ev.annotation_text),
   ("tlp", .str ev.tlp)]

/-- The keyword parameters of `MISPClient.create_ddos_event` (after `self`),
in signature order. -/
def CREATE_PARAM_NAMES : List String :=
  ["event_name", "event_date", "attacker_ips", "victim_ip", "victim_port",
   "attacker_ports", "description", "tlp", "workflow_state", "attack_type"]

/-- The parameters of `create_ddos_event` without a default value. -/
def CREATE_REQUIRED_PARAMS : List String :=
  ["event_name", "event_date", "attacker_ips", "victim_ip", "victim_port"]

/-- Models CPython call binding for `client.create_ddos_event(**kwargs)`:
a key that is not a parameter name raises `TypeError` (unexpected keyword
argument), and after binding every defaultless parameter must be bound or a
`TypeError` (missing arguments) is raised. -/
def bindCreateKwargs (keys : List String) : Except PyError Unit :=
  match keys.find? (fun k => ¬ CREATE_PARAM_NAMES.any (fun p => p = k)) with
  | some k =>
    .error (.typeError
      ("create_ddos_event() got an unexpected keyword argument \x27" ++ k ++ "\x27"))
  | none =>
    let missing := CREATE_REQUIRED_PARAMS.filter (fun p => ¬ keys.any (fun k => k = p))
    if missing ≠ [] then
      .error (.typeError ("create_ddos_event() missing " ++ toString missing.length ++
        " required positional arguments"))
    else .ok ()

/-- A successful entry of `upload_events`' result. -/
structure UploadSuccess where
  event_name : String
  event_id : Nat
  event_uuid : String
  url : String
deriving Repr, DecidableEq

/-- A failed entry of `upload_events`' result. -/
structure UploadFailure where
  event_name : String
  error : String
  event_index : Nat
deriving Repr, DecidableEq

/-- The result dictionary of `BulkUploadCLI.upload_events` (the wall-clock
duration is not modelled). -/
structure UploadResult where
  total : Nat
  successful : List UploadSuccess
  failed : List UploadFailure
deriving Repr, DecidableEq

/-- The display name of an event: `event_data.get("event_name", f"Event {idx}")`. -/
def eventDisplayName (e : EventDict) (idx : Nat) : String :=
  match (e.find? (fun p => p.1 = "event_name")).map Prod.snd with
  | some (.str s) => s
  | _ => "Event " ++ toString idx

/-- The error string recorded by `upload_events` for a failed submission:
the typed MISP client errors are caught by the first `except` clause and
recorded as `str(e)`; any other exception falls to the generic clause and is
recorded with an "Unexpected error: " prefix. -/
def failMessage : PyError → String
  | .mispValidationError m => m
  | .mispConnectionError m => m
  | .mispClientError m => m
  | other => "Unexpected error: " ++ errMessage other

/-- The loop body of `upload_events`: accumulate successes and failures in
order; a failure appends to `failed` and, when `continue_on_error` is false,
breaks out of the loop.  The third component records the 1-based indices of
the records on which the submission client was invoked, making the call
trace of the loop explicit. -/
def uploadGo (submit : EventDict → Except PyError (Nat × String × String))
    (continue_on_error : Bool) :
    List EventDict → Nat → List UploadSuccess → List UploadFailure → List Nat →
    List UploadSuccess × List UploadFailure × List Nat
  | [], _, succ, fail, att => (succ, fail, att)
  | e :: rest, idx, succ, fail, att =>
    match submit e with
    | .ok (id, uuid, url) =>
      uploadGo submit continue_on_error rest (idx + 1)
        (succ ++ [⟨eventDisplayName e idx, id, uuid, url⟩]) fail (att ++ [idx])
    | .error err =>
      if continue_on_error then
        uploadGo submit continue_on_error rest (idx + 1) succ
          (fail ++ [⟨eventDisplayName e idx, failMessage err, idx⟩]) (att ++ [idx])
      else (succ, fail ++ [⟨eventDisplayName e idx, failMessage err, idx⟩], att ++ [idx])

/-- Translation of `BulkUploadCLI.upload_events` from `src/cli_bulk.py`.
`submit e` abstracts `self.client.create_ddos_event(**e)` returning
(event_id, event_uuid, url) on success; the typed MISP errors are recorded
with `str(e)`, any other exception with an "Unexpected error: " prefix, and
no exception propagates.  The second component is the list of attempted
record indices. -/
def upload_events (submit : EventDict → Except PyError (Nat × String × String))
    (events : List EventDict) (continue_on_error : Bool) : UploadResult × List Nat :=
  let r := uploadGo submit continue_on_error events 1 [] [] []
  (⟨events.length, r.1, r.2.1⟩, r.2.2)

/-- The submission step of the composed pipeline: splatting an event
dictionary produced by the CSV processor into `create_ddos_event`.  Binding
the keyword arguments is attempted first, exactly as the Python call does;
only if it succeeded would the decorated client function run. -/
def pipelineSubmit (run : EventDict → Except PyError (Nat × String × String))
    (e : EventDict) : Except PyError (Nat × String × String) :=
  match bindCreateKwargs (e.map Prod.fst) with
  | .error err => .error err
  | .ok _ => run e

/-- Boolean prefix test on character lists. -/
def isPrefixList : List Char → List Char → Bool
  | [], _ => true
  | _ :: _, [] => false
  | a :: as, b :: bs => a = b && isPrefixList as bs

/-- Python `s.startswith(pre)`. -/
def strStartsWith (s pre : String) : Bool := isPrefixList pre.data s.data

/-- Whether an `Except` value is a success. -/
def exceptOk {ε α : Type} : Except ε α → Bool
  | .ok _ => true
  | .error _ => false

lemma strContains_refl (s : String) : strContains s s := ⟨[], [], by simp⟩

lemma strContains_app_l (a b p : String) (h : strContains a p) : strContains (a ++ b) p := by
  obtain ⟨u, v, huv⟩ := h
  exact ⟨u, v ++ b.data, by rw [String.data_append, ← huv]; simp⟩

lemma strContains_app_r (a b p : String) (h : strContains b p) : strContains (a ++ b) p := by
  obtain ⟨u, v, huv⟩ := h
  exact ⟨a.data ++ u, v, by rw [String.data_append, ← huv]; simp⟩

lemma strContains_of_mem_joinWith (sep : String) (l : List String) (s : String) (h : s ∈ l) :
    strContains (joinWith sep l) s := by
  induction l with
  | nil => cases h
  | cons a t ih =>
    rcases List.mem_cons.mp h with rfl | hmem
    · cases t with
      | nil => exact strContains_refl s
      | cons b t2 => exact strContains_app_l _ _ _ (strContains_app_l _ _ _ (strContains_refl s))
    · cases t with
      | nil => cases hmem
      | cons b t2 => exact strContains_app_r (a ++ sep) _ _ (ih hmem)

/-- Claim C9: the port validator accepts exactly the strings parsing to an
integer in [1, 65535]: an in-range parse yields `true`; a parse to 0, a
negative number or a number at least 65536 yields `false`; a non-numeric
string yields `false`. -/
theorem validate_port_range_spec :
    (∀ (s : String) (n : Int), pyInt s = some n → 1 ≤ n → n ≤ 65535 → validate_port s = true) ∧
    (∀ (s : String) (n : Int), pyInt s = some n → (n < 1 ∨ 65535 < n) → validate_port s = false) ∧
    (∀ s : String, pyInt s = none → validate_port s = false) := by
  refine ⟨?_, ?_, ?_⟩
  · intro s n h h1 h2
    unfold validate_port
    rw [h]
    simp [h1, h2]
  · intro s n h hout
    unfold validate_port
    rw [h]
    simp only [decide_eq_false_iff_not]
    rintro ⟨h1, h2⟩
    rcases hout with h3 | h3 <;> omega
  · intro s h
    unfold validate_port
    rw [h]

theorem validate_port_range_spec_witness :
    validate_port "443" = true ∧ validate_port " 65535 " = true ∧
    validate_port "0" = false ∧ validate_port "-7" = false ∧
    validate_port "65536" = false ∧ validate_port "abc" = false := by
  refine ⟨?_, ?_, ?_, ?_, ?_, ?_⟩
  · exact validate_port_range_spec.1 "443" 443 (by decide) (by decide) (by decide)
  · exact validate_port_range_spec.1 " 65535 " 65535 (by decide) (by decide) (by decide)
  · exact validate_port_range_spec.2.1 "0" 0 (by decide) (Or.inl (by decide))
  · exact validate_port_range_spec.2.1 "-7" (-7) (by decide) (Or.inl (by decide))
  · exact validate_port_range_spec.2.1 "65536" 65536 (by decide) (Or.inr (by decide))
  · exact validate_port_range_spec.2.2 "abc" (by decide)

/-- A concrete, fully valid argument record for `create_ddos_event`. -/
def c1Args : CreateArgs :=
  ⟨"DDoS Attack on Web Server", "2024-01-15", ["203.0.113.5"], "198.51.100.7", 443,
    none, "Large-scale DDoS attack", "green", "new", "direct-flood"⟩

/-- Claim C1: the deployed submission path never retries.  The decorated
`create_ddos_event` wraps every remote `PyMISPError` into
`MISPConnectionError` inside its own body, and `MISPConnectionError` is not
in the decorator's retryable tuple, so: a remote call failing transiently on
every attempt surfaces `Failed to create event: ...` after one single
attempt with no backoff sleeps (first conjunct); a remote call that would
succeed on the third attempt equally fails on the first (second conjunct);
the surfaced message does not mention "3 attempts" (third conjunct).  The
bare wrapper does implement the claimed policy when the transient error
reaches it directly (fourth and fifth conjuncts), which is why this is
recorded as a defect of the composition, not of the wrapper. -/
theorem create_event_retry_code_bug :
    submit_event (fun _ _ => .error (.pymispError "connection timeout")) "https://misp.example" c1Args =
      (.error (.mispConnectionError "Failed to create event: connection timeout"), []) ∧
    submit_event
        (fun k _ => if k < 2 then .error (.pymispError "connection timeout") else .ok (7, "uuid-7"))
        "https://misp.example" c1Args =
      (.error (.mispConnectionError "Failed to create event: connection timeout"), []) ∧
    ¬ strContains "Failed to create event: connection timeout" "3 attempts" ∧
    retry_with_backoff
        (fun k => if k < 2 then .error (.pymispError "connection timeout") else .ok 7) 3 2 =
      (.ok 7, [2, 4]) ∧
    retry_with_backoff (fun _ => (.error (.pymispError "connection timeout") : Except PyError Nat)) 3 2 =
      (.error (.mispConnectionError "Failed after 3 attempts: connection timeout"), [2, 4]) := by
  refine ⟨by decide, by decide, by decide, by decide, by decide⟩

/-- Claim C5: the created record's workflow state is the constant "new":
the whole of `create_ddos_event` is independent of the `workflow_state`
argument, the assembled event carries the tag `workflow:state=new`, and no
other workflow-state tag is attached. -/
theorem workflow_state_always_new :
    (∀ (add : MISPEventModel → Except PyError (Nat × String)) (url : String)
        (a : CreateArgs) (ws : String),
        create_ddos_event add url { a with workflow_state := ws } = create_ddos_event add url a) ∧
    (∀ a : CreateArgs, "workflow:state=new" ∈ (build_event a).tags) ∧
    (∀ (a : CreateArgs) (t : String), t ∈ (build_event a).tags →
        strStartsWith t "workflow:state=" = true → t = "workflow:state=new") := by
  refine ⟨?_, ?_, ?_⟩
  · intro add url a ws
    cases a
    rfl
  · intro a
    simp [build_event]
  · intro a t ht hpre
    simp [build_event, MITRE_ATTACK_PATTERN, MITRE_GALAXY_CLUSTER] at ht
    rcases ht with rfl | rfl | rfl | rfl | rfl | rfl
    · exfalso
      have : strStartsWith ("tlp:" ++ pyLower a.tlp) "workflow:state=" = false := by
        unfold strStartsWith
        rw [String.data_append]
        rfl
      rw [this] at hpre
      cases hpre
    · cases hpre
    · cases hpre
    · cases hpre
    · cases hpre
    · rfl

theorem workflow_state_always_new_witness :
    create_ddos_event (fun _ => .ok (7, "u")) "https://m"
        { c1Args with workflow_state := "closed" } =
      create_ddos_event (fun _ => .ok (7, "u")) "https://m" c1Args ∧
    "workflow:state=new" ∈ (build_event c1Args).tags ∧
    ("workflow:state=closed" ∈ (build_event c1Args).tags → False) := by
  refine ⟨workflow_state_always_new.1 _ "https://m" c1Args "closed", workflow_state_always_new.2.1 c1Args, ?_⟩
  intro h
  exact absurd (workflow_state_always_new.2.2 c1Args "workflow:state=closed" h (by decide))
    (by decide)

/-- Claim C6, counterexample: the hard-coded galaxy-cluster tag contains
characters (spaces) outside the allowed set and fails the sanitization
check, yet it is among the tags attached to every assembled event, and a
successful creation sends it to the remote system: `create_ddos_event`
never routes its tags through `_sanitize_tag`. -/
theorem sanitize_tag_bypassed_counterexample :
    (∃ c ∈ MITRE_GALAXY_CLUSTER.data, tagAllowedChar c = false) ∧
    sanitize_tag MITRE_GALAXY_CLUSTER =
      .error ("Tag contains invalid characters: " ++ MITRE_GALAXY_CLUSTER) ∧
    MITRE_GALAXY_CLUSTER ∈ (build_event c1Args).tags ∧
    create_ddos_event (fun _ => .ok (7, "u")) "https://m" c1Args =
      .ok ⟨7, "u", "DDoS Attack on Web Server", "https://m/events/view/7"⟩ := by
  refine ⟨by decide, by decide, by decide, by decide⟩

/-- Claim C6, amended: `_sanitize_tag`, when invoked, rejects with a
`MISPValidationError` every tag whose stripped form contains a character
outside the allowed set (and accepts exactly the nonempty all-allowed
stripped forms); but `create_ddos_event` attaches its tags without invoking
the sanitizer: every attached tag is either the TLP tag or one of five
hard-coded constants (one of which, the galaxy cluster, itself fails the
check). -/
theorem sanitize_tag_amended :
    (∀ tag : String, (∃ c ∈ (pyStrip tag).data, tagAllowedChar c = false) →
        sanitize_tag tag = .error ("Tag contains invalid characters: " ++ tag)) ∧
    (∀ tag : String, (pyStrip tag).data ≠ [] →
        (∀ c ∈ (pyStrip tag).data, tagAllowedChar c = true) →
        sanitize_tag tag = .ok (pyStrip tag)) ∧
    (∀ (a : CreateArgs) (t : String), t ∈ (build_event a).tags →
        t = "tlp:" ++ pyLower a.tlp ∨
          t ∈ ["information-security-indicators:incident-type=\"ddos\"",
               "misp-event-type:incident", MITRE_ATTACK_PATTERN, MITRE_GALAXY_CLUSTER,
               "workflow:state=new"]) := by
  refine ⟨?_, ?_, ?_⟩
  · intro tag hbad
    obtain ⟨c, hc, hfalse⟩ := hbad
    unfold sanitize_tag
    rw [if_neg]
    rintro ⟨_, hall⟩
    have := List.all_eq_true.mp hall c hc
    rw [hfalse] at this
    cases this
  · intro tag hne hall
    unfold sanitize_tag
    rw [if_pos]
    exact ⟨hne, List.all_eq_true.mpr hall⟩
  · intro a t ht
    simp [build_event] at ht
    rcases ht with rfl | rfl | rfl | rfl | rfl | rfl
    · exact Or.inl rfl
    · exact Or.inr (by decide)
    · exact Or.inr (by decide)
    · exact Or.inr (by decide)
    · exact Or.inr (by decide)
    · exact Or.inr (by decide)

theorem sanitize_tag_amended_witness :
    sanitize_tag "tag; DROP TABLE events;" =
      .error "Tag contains invalid characters: tag; DROP TABLE events;" ∧
    sanitize_tag "tlp:green" = .ok "tlp:green" ∧
    ("tlp:" ++ pyLower c1Args.tlp = "tlp:green" ∨
      "tlp:" ++ pyLower c1Args.tlp ∈ ["information-security-indicators:incident-type=\"ddos\"",
        "misp-event-type:incident", MITRE_ATTACK_PATTERN, MITRE_GALAXY_CLUSTER,
        "workflow:state=new"]) := by
  refine ⟨sanitize_tag_amended.1 "tag; DROP TABLE events;" ⟨';', by decide, by decide⟩,
    sanitize_tag_amended.2.1 "tlp:green" (by decide) (by decide), ?_⟩
  have := sanitize_tag_amended.2.2 c1Args ("tlp:" ++ pyLower c1Args.tlp) (by decide)
  rcases this with h | h
  · exact Or.inl (by decide)
  · exact Or.inr h

/-- The row of claim C3's counterexample: the required `date` column is
missing and the `tlp` value fails the membership check. -/
def c3Row : Row :=
  [("event_name", "X"), ("attacker_ips", "203.0.113.5"), ("annotation_text", "y"),
   ("tlp", "purple")]

/-- Claim C3, counterexample: on a row that is missing a required field and
also carries an invalid TLP value, `validate_row` raises after the
required-field loop alone: the single error message reports only the
missing field, although the TLP membership check fails on this row and has
not been run, so the row does not raise "only once all field checks have
run". -/
theorem validate_row_two_phase_counterexample :
    (validate_row c3Row 2).1 = .error "Row 2: Missing required field \x27date\x27" ∧
    pyLower (pyStrip (rowGetD c3Row "tlp" "green")) = "purple" ∧
    (VALID_TLP_LEVELS.any (fun v => v = "purple")) = false ∧
    ¬ strContains "Row 2: Missing required field \x27date\x27" "TLP" := by
  refine ⟨by decide, by decide, by decide, by decide⟩

/-- Claim C3, amended: error collection is two-phased.  All missing
required-field errors are collected and raised together, before any other
check runs; when every required field is present and nonblank, all remaining
field-level errors (length limits, date format, IP parsing, port range,
IP-list size, TLP membership) are collected and raised together in one
newline-joined error, each individual message contained in it, and the row
succeeds exactly when that error list is empty. -/
theorem validate_row_error_collection :
    (∀ (row : Row) (n : Nat), requiredFieldErrors row n ≠ [] →
        (validate_row row n).1 = .error (joinLines (requiredFieldErrors row n))) ∧
    (∀ (row : Row) (n : Nat), requiredFieldErrors row n = [] → fieldErrors row n ≠ [] →
        (validate_row row n).1 = .error (joinLines (fieldErrors row n))) ∧
    (∀ (row : Row) (n : Nat) (msg : String), requiredFieldErrors row n = [] →
        msg ∈ fieldErrors row n →
        ∃ m, (validate_row row n).1 = .error m ∧ strContains m msg) ∧
    (∀ (row : Row) (n : Nat), requiredFieldErrors row n = [] → fieldErrors row n = [] →
        (validate_row row n).1 = .ok (buildEventData row)) := by
  refine ⟨?_, ?_, ?_, ?_⟩
  · intro row n h
    unfold validate_row
    rw [if_pos h]
  · intro row n h1 h2
    unfold validate_row
    rw [if_neg (by simp [h1]), if_pos h2]
  · intro row n msg h1 hmem
    have h2 : fieldErrors row n ≠ [] := by
      intro hnil
      rw [hnil] at hmem
      cases hmem
    refine ⟨joinLines (fieldErrors row n), ?_, ?_⟩
    · unfold validate_row
      rw [if_neg (by simp [h1]), if_pos h2]
    · exact strContains_of_mem_joinWith "\n" _ _ hmem
  · intro row n h1 h2
    unfold validate_row
    rw [if_neg (by simp [h1]), if_neg (by simp [h2])]

/-- A row with two independent field errors (bad date, bad TLP) and all
required fields present. -/
def c3MultiRow : Row :=
  [("date", "2024-13-01"), ("event_name", "X"), ("attacker_ips", "203.0.113.5"),
   ("annotation_text", "y"), ("tlp", "purple")]

theorem validate_row_error_collection_witness :
    (validate_row c3Row 2).1 = .error (joinLines (requiredFieldErrors c3Row 2)) ∧
    (∃ m, (validate_row c3MultiRow 5).1 = .error m ∧
      strContains m "Row 5: Invalid date format. Use YYYY-MM-DD or YYYY-MM-DD HH:MM:SS") ∧
    (∃ m, (validate_row c3MultiRow 5).1 = .error m ∧
      strContains m ("Row 5: Invalid TLP level \x27purple\x27. Must be one of " ++
        pyListRepr VALID_TLP_LEVELS)) := by
  refine ⟨validate_row_error_collection.1 c3Row 2 (by decide), ?_, ?_⟩
  · exact validate_row_error_collection.2.2.1 c3MultiRow 5 _ (by decide) (by decide)
  · exact validate_row_error_collection.2.2.1 c3MultiRow 5 _ (by decide) (by decide)

/-- Claim C10: `validate_row` returns the row mapping unchanged (the body
only reads from it), and on success it returns the freshly built normalized
record, whose fields are stripped/parsed copies of the row's cells. -/
theorem validate_row_no_mutation :
    (∀ (row : Row) (n : Nat), (validate_row row n).2 = row) ∧
    (∀ (row : Row) (n : Nat) (ev : EventData), (validate_row row n).1 = .ok ev →
        ev = buildEventData row ∧
        ev.event_name = pyStrip (rowD row "event_name") ∧
        ev.event_date = pyStrip (rowD row "date") ∧
        ev.annotation_text = pyStrip (rowD row "annotation_text") ∧
        ev.attacker_ips = splitSemi (pyStrip (rowD row "attacker_ips"))) := by
  constructor
  · intro row n
    unfold validate_row
    split_ifs <;> rfl
  · intro row n ev h
    unfold validate_row at h
    split_ifs at h
    all_goals simp at h
    subst h
    exact ⟨rfl, rfl, rfl, rfl, rfl⟩

/-- A row with surrounding whitespace in its cells, for the frame witness. -/
def c10Row : Row :=
  [("date", " 2024-01-15 "), ("event_name", " Attack A "),
   ("attacker_ips", "203.0.113.5 ; 198.51.100.7"), ("annotation_text", " note ")]

theorem validate_row_no_mutation_witness :
    (validate_row c10Row 2).2 = c10Row ∧
    (buildEventData c10Row = buildEventData c10Row ∧
      (buildEventData c10Row).event_name = pyStrip (rowD c10Row "event_name") ∧
      (buildEventData c10Row).event_date = pyStrip (rowD c10Row "date") ∧
      (buildEventData c10Row).annotation_text = pyStrip (rowD c10Row "annotation_text") ∧
      (buildEventData c10Row).attacker_ips = splitSemi (pyStrip (rowD c10Row "attacker_ips"))) := by
  exact ⟨validate_row_no_mutation.1 c10Row 2,
    validate_row_no_mutation.2 c10Row 2 (buildEventData c10Row) (by decide)⟩

/-- The normalized records of the rows of a block that validate, with row
numbers counted from `idx`. -/
def okEventsFrom : Nat → List Row → List EventData
  | _, [] => []
  | idx, r :: rest =>
    (match (validate_row r idx).1 with
     | .ok ev => [ev]
     | .error _ => []) ++ okEventsFrom (idx + 1) rest

lemma process_rows_prefix_valid (skip : Bool) (pre : List Row) :
    ∀ (rest : List Row) (idx : Nat) (valid : List EventData)
      (invalid : List (Nat × String)) (total : Nat),
    (∀ i (h : i < pre.length), exceptOk (validate_row (pre.get ⟨i, h⟩) (idx + i)).1 = true) →
    process_rows skip (pre ++ rest) idx valid invalid total =
      process_rows skip rest (idx + pre.length) (valid ++ okEventsFrom idx pre) invalid
        (total + pre.length) := by
  induction pre with
  | nil => intro rest idx valid invalid total _; simp [okEventsFrom]
  | cons r pre ih =>
    intro rest idx valid invalid total hall
    have h0 : exceptOk (validate_row r idx).1 = true := by
      have := hall 0 (by simp)
      simpa using this
    cases hres : (validate_row r idx).1 with
    | error m =>
      rw [hres] at h0
      cases h0
    | ok ev =>
      have hall2 : ∀ i (h : i < pre.length),
          exceptOk (validate_row (pre.get ⟨i, h⟩) (idx + 1 + i)).1 = true := by
        intro i h
        have h2 : i + 1 < (r :: pre).length := by simpa using Nat.succ_lt_succ h
        have := hall (i + 1) h2
        have hget : (r :: pre).get ⟨i + 1, h2⟩ = pre.get ⟨i, h⟩ := rfl
        rw [hget] at this
        rwa [show idx + (i + 1) = idx + 1 + i by omega] at this
      have hok : okEventsFrom idx (r :: pre) = ev :: okEventsFrom (idx + 1) pre := by
        simp only [okEventsFrom, hres, List.singleton_append]
      calc process_rows skip ((r :: pre) ++ rest) idx valid invalid total
          = process_rows skip (pre ++ rest) (idx + 1) (valid ++ [ev]) invalid (total + 1) := by
            simp only [List.cons_append, process_rows, hres]
            rfl
        _ = process_rows skip rest (idx + 1 + pre.length)
              ((valid ++ [ev]) ++ okEventsFrom (idx + 1) pre) invalid (total + 1 + pre.length) :=
            ih rest (idx + 1) (valid ++ [ev]) invalid (total + 1) hall2
        _ = process_rows skip rest (idx + (r :: pre).length)
              (valid ++ okEventsFrom idx (r :: pre)) invalid (total + (r :: pre).length) := by
            rw [hok]
            have e1 : idx + 1 + pre.length = idx + (r :: pre).length := by
              simp only [List.length_cons]
              omega
            have e2 : total + 1 + pre.length = total + (r :: pre).length := by
              simp only [List.length_cons]
              omega
            have e3 : (valid ++ [ev]) ++ okEventsFrom (idx + 1) pre =
                valid ++ ev :: okEventsFrom (idx + 1) pre := by simp
            rw [e1, e2, e3]

lemma process_rows_skip_true_ok (rows : List Row) :
    ∀ (idx : Nat) (valid : List EventData) (invalid : List (Nat × String)) (total : Nat),
    ∃ res, process_rows true rows idx valid invalid total = .ok res ∧
      res.total_rows = total + rows.length ∧ ∀ x ∈ invalid, x ∈ res.invalid_rows := by
  induction rows with
  | nil =>
    intro idx valid invalid total
    exact ⟨⟨valid, invalid, total⟩, rfl, by simp, fun x h => h⟩
  | cons r rest ih =>
    intro idx valid invalid total
    cases hres : (validate_row r idx).1 with
    | ok ev =>
      obtain ⟨res, he, ht, hm⟩ := ih (idx + 1) (valid ++ [ev]) invalid (total + 1)
      refine ⟨res, ?_, by rw [ht]; simp only [List.length_cons]; omega, hm⟩
      show process_rows true (r :: rest) idx valid invalid total = .ok res
      simp only [process_rows, hres]
      exact he
    | error m =>
      obtain ⟨res, he, ht, hm⟩ := ih (idx + 1) valid (invalid ++ [(idx, m)]) (total + 1)
      refine ⟨res, ?_, by rw [ht]; simp only [List.length_cons]; omega,
        fun x hx => hm x (List.mem_append_left _ hx)⟩
      show process_rows true (r :: rest) idx valid invalid total = .ok res
      simp only [process_rows, hres]
      exact he

lemma strContains_trans (a b p : String) (h1 : strContains a b) (h2 : strContains b p) :
    strContains a p := List.IsInfix.trans h2 h1

/-- The concrete batch file of claim C4: a comment line, the header, and
three data rows of which the first (row number 2) has an invalid attacker
IP. -/
def c4Lines : List String :=
  ["# DDoS events", "date,event_name,attacker_ips,annotation_text",
   "2024-01-15,A,999.9.9.9,x", "2024-01-15,B,203.0.113.5,y", "2024-01-16,C,198.51.100.7,z"]

def c4Msg : String := "Row 2: Invalid attacker IP address \x27999.9.9.9\x27"

def c4EvB : EventData := ⟨"B", "2024-01-15", ["203.0.113.5"], none, none, "y", "green"⟩

def c4EvC : EventData := ⟨"C", "2024-01-16", ["198.51.100.7"], none, none, "z", "green"⟩

/-- Claim C4: when a data row fails validation after a prefix of valid rows,
`process_csv` with `skip_invalid = false` aborts with exactly that row's
error (no result, valid prefix discarded), and with `skip_invalid = true`
it records (row number, message) in `invalid_rows` and continues to the end
(total counts every data row).  The final two conjuncts are the claim's
concrete instance: three data rows whose row 2 has an invalid IP give two
valid records and exactly one (2, message) entry under `skip_invalid=true`,
and abort with that message under `skip_invalid=false`. -/
theorem process_csv_skip_invalid_policy :
    (∀ (lines : List String) (header : String) (dataLines : List String)
        (pre post : List Row) (r : Row) (msg : String),
      content_lines lines = header :: dataLines →
      missing_required (strSplit header ',') = [] →
      dataLines.map (makeRow (strSplit header ',')) = pre ++ r :: post →
      (∀ i (h : i < pre.length), exceptOk (validate_row (pre.get ⟨i, h⟩) (2 + i)).1 = true) →
      (validate_row r (2 + pre.length)).1 = .error msg →
      process_csv lines false = .error msg ∧
      ∃ res, process_csv lines true = .ok res ∧ (2 + pre.length, msg) ∈ res.invalid_rows ∧
        res.total_rows = pre.length + 1 + post.length) ∧
    process_csv c4Lines true = .ok ⟨[c4EvB, c4EvC], [(2, c4Msg)], 3⟩ ∧
    process_csv c4Lines false = .error c4Msg := by
  refine ⟨?_, by decide, by decide⟩
  intro lines header dataLines pre post r msg hc hm hrows hpre hr
  have hstep : ∀ skip : Bool, process_csv lines skip =
      process_rows skip (pre ++ r :: post) 2 [] [] 0 := by
    intro skip
    unfold process_csv
    rw [hc]
    simp only [if_neg (by simp [hm] : ¬ missing_required (strSplit header ',') ≠ [])]
    rw [hrows]
  constructor
  · rw [hstep false, process_rows_prefix_valid false pre (r :: post) 2 [] [] 0 hpre]
    simp only [process_rows, hr]
    rfl
  · rw [hstep true, process_rows_prefix_valid true pre (r :: post) 2 [] [] 0 hpre]
    have hone : process_rows true (r :: post) (2 + pre.length) ([] ++ okEventsFrom 2 pre) [] (0 + pre.length) =
        process_rows true post (2 + pre.length + 1) ([] ++ okEventsFrom 2 pre)
          ([] ++ [(2 + pre.length, msg)]) (0 + pre.length + 1) := by
      simp only [process_rows, hr]
      rfl
    rw [hone]
    obtain ⟨res, he, ht, hmem⟩ := process_rows_skip_true_ok post (2 + pre.length + 1)
      ([] ++ okEventsFrom 2 pre) ([] ++ [(2 + pre.length, msg)]) (0 + pre.length + 1)
    refine ⟨res, he, hmem _ (by simp), by rw [ht]; omega⟩

theorem process_csv_skip_invalid_policy_witness :
    process_csv c4Lines false = .error c4Msg ∧
    ∃ res, process_csv c4Lines true = .ok res ∧ (2, c4Msg) ∈ res.invalid_rows ∧
      res.total_rows = 3 := by
  have h := process_csv_skip_invalid_policy.1 c4Lines
    "date,event_name,attacker_ips,annotation_text"
    ["2024-01-15,A,999.9.9.9,x", "2024-01-15,B,203.0.113.5,y", "2024-01-16,C,198.51.100.7,z"]
    [] [makeRow (strSplit "date,event_name,attacker_ips,annotation_text" ',') "2024-01-15,B,203.0.113.5,y",
        makeRow (strSplit "date,event_name,attacker_ips,annotation_text" ',') "2024-01-16,C,198.51.100.7,z"]
    (makeRow (strSplit "date,event_name,attacker_ips,annotation_text" ',') "2024-01-15,A,999.9.9.9,x")
    c4Msg (by decide) (by decide) (by decide)
    (fun i hi => absurd hi (Nat.not_lt_zero i)) (by decide)
  exact ⟨h.1, h.2⟩

/-- Claim C8: a batch file whose header (the first non-comment, non-blank
line) lacks a required column fails with the schema error naming the missing
columns, whatever the data lines are (so before any data row reaches the
row validator), and the error message contains each missing column name. -/
theorem process_csv_missing_columns :
    ∀ header : String, missing_required (strSplit header ',') ≠ [] →
      (∀ (lines dataLines : List String) (skip : Bool),
        content_lines lines = header :: dataLines →
        process_csv lines skip =
          .error ("CSV missing required columns: " ++
            pySetRepr (missing_required (strSplit header ',')))) ∧
      (∀ c ∈ missing_required (strSplit header ','),
        strContains ("CSV missing required columns: " ++
          pySetRepr (missing_required (strSplit header ','))) c) := by
  intro header hm
  constructor
  · intro lines dataLines skip hc
    unfold process_csv
    rw [hc]
    simp only [if_pos hm]
  · intro c hcmem
    apply strContains_app_r
    unfold pySetRepr
    apply strContains_app_l
    apply strContains_app_r
    refine strContains_trans _ ("\x27" ++ c ++ "\x27") c ?_ ?_
    · exact strContains_of_mem_joinWith ", " _ _ (List.mem_map_of_mem _ hcmem)
    · exact strContains_app_l _ _ _ (strContains_app_r _ _ _ (strContains_refl c))

theorem process_csv_missing_columns_witness :
    process_csv ["event_name,attacker_ips", "A,203.0.113.5"] true =
      .error ("CSV missing required columns: " ++
        pySetRepr (missing_required (strSplit "event_name,attacker_ips" ','))) ∧
    strContains ("CSV missing required columns: " ++
      pySetRepr (missing_required (strSplit "event_name,attacker_ips" ','))) "date" ∧
    strContains ("CSV missing required columns: " ++
      pySetRepr (missing_required (strSplit "event_name,attacker_ips" ','))) "annotation_text" := by
  have h := process_csv_missing_columns "event_name,attacker_ips" (by decide)
  exact ⟨h.1 ["event_name,attacker_ips", "A,203.0.113.5"] ["A,203.0.113.5"] true (by decide),
    h.2 "date" (by decide), h.2 "annotation_text" (by decide)⟩

/-- The keys of the event dictionary produced by `validate_row`, in literal
order. -/
def EVENT_DATA_KEYS : List String :=
  ["event_name", "event_date", "attacker_ips", "destination_ips", "destination_ports",
   "annotation_text", "tlp"]

/-- The `TypeError` message raised when an event dictionary is splatted into
`create_ddos_event`. -/
def c2Msg : String :=
  "create_ddos_event() got an unexpected keyword argument \x27destination_ips\x27"

lemma uploadGo_const_error (submit : EventDict → Except PyError (Nat × String × String))
    (K : String) (events : List EventDict) :
    ∀ (cont : Bool) (idx : Nat) (succ : List UploadSuccess) (fail : List UploadFailure)
      (att : List Nat),
    (∀ e ∈ events, submit e = .error (.typeError K)) →
    (uploadGo submit cont events idx succ fail att).1 = succ ∧
    (∀ f ∈ (uploadGo submit cont events idx succ fail att).2.1,
        f ∈ fail ∨ f.error = "Unexpected error: " ++ K) ∧
    (cont = true →
      (uploadGo submit cont events idx succ fail att).2.1.length = fail.length + events.length) := by
  induction events with
  | nil =>
    intro cont idx succ fail att _
    exact ⟨rfl, fun f hf => Or.inl hf, by intro _; simp [uploadGo]⟩
  | cons e rest ih =>
    intro cont idx succ fail att hall
    have he : submit e = .error (.typeError K) := hall e (by simp)
    have hrest : ∀ x ∈ rest, submit x = .error (.typeError K) := fun x hx => hall x (by simp [hx])
    cases cont with
    | true =>
      have hgo : uploadGo submit true (e :: rest) idx succ fail att =
          uploadGo submit true rest (idx + 1) succ
            (fail ++ [⟨eventDisplayName e idx, "Unexpected error: " ++ K, idx⟩]) (att ++ [idx]) := by
        simp only [uploadGo, he, failMessage, errMessage]
        rw [if_pos trivial]
      obtain ⟨h1, h2, h3⟩ := ih true (idx + 1) succ
        (fail ++ [⟨eventDisplayName e idx, "Unexpected error: " ++ K, idx⟩]) (att ++ [idx]) hrest
      rw [hgo]
      refine ⟨h1, ?_, ?_⟩
      · intro f hf
        rcases h2 f hf with hin | herr
        · rcases List.mem_append.mp hin with hin2 | hin2
          · exact Or.inl hin2
          · simp at hin2
            subst hin2
            exact Or.inr rfl
        · exact Or.inr herr
      · intro _
        rw [h3 rfl]
        simp only [List.length_append, List.length_cons, List.length_nil]
        omega
    | false =>
      have hgo : uploadGo submit false (e :: rest) idx succ fail att =
          (succ, fail ++ [⟨eventDisplayName e idx, "Unexpected error: " ++ K, idx⟩], att ++ [idx]) := by
        simp only [uploadGo, he, failMessage, errMessage]
        rfl
      rw [hgo]
      refine ⟨rfl, ?_, by intro h; cases h⟩
      intro f hf
      rcases List.mem_append.mp hf with hin | hin
      · exact Or.inl hin
      · simp at hin
        subst hin
        exact Or.inr rfl

/-- Claim C2: the dictionaries produced by the CSV processor do not fit the
submission client's signature.  Their key set is fixed; splatting one into
`create_ddos_event` raises a `TypeError` before the client body runs
(`destination_ips` is not a parameter; `victim_ip` and `victim_port` are
required parameters that are never bound; `destination_ports` and
`annotation_text` are not parameters either); `upload_events` records each
such failure as a failed outcome with an "Unexpected error" message; hence
the composed parse-then-upload pipeline yields zero successful submissions
for every CSV input. -/
theorem pipeline_keyword_mismatch :
    (∀ ev : EventData, (eventDataDict ev).map Prod.fst = EVENT_DATA_KEYS) ∧
    (∀ (run : EventDict → Except PyError (Nat × String × String)) (ev : EventData),
        pipelineSubmit run (eventDataDict ev) = .error (.typeError c2Msg)) ∧
    ("victim_ip" ∈ CREATE_REQUIRED_PARAMS ∧ "victim_ip" ∉ EVENT_DATA_KEYS ∧
     "victim_port" ∈ CREATE_REQUIRED_PARAMS ∧ "victim_port" ∉ EVENT_DATA_KEYS ∧
     "destination_ips" ∉ CREATE_PARAM_NAMES ∧ "destination_ports" ∉ CREATE_PARAM_NAMES ∧
     "annotation_text" ∉ CREATE_PARAM_NAMES) ∧
    (∀ (run : EventDict → Except PyError (Nat × String × String)) (events : List EventData)
        (cont : Bool),
      (upload_events (pipelineSubmit run) (events.map eventDataDict) cont).1.successful = [] ∧
      (∀ f ∈ (upload_events (pipelineSubmit run) (events.map eventDataDict) cont).1.failed,
          f.error = "Unexpected error: " ++ c2Msg) ∧
      (cont = true →
        (upload_events (pipelineSubmit run) (events.map eventDataDict) cont).1.failed.length =
          events.length)) ∧
    (∀ (lines : List String) (skip : Bool) (res : CsvResult)
        (run : EventDict → Except PyError (Nat × String × String)) (cont : Bool),
      process_csv lines skip = .ok res →
      (upload_events (pipelineSubmit run) (res.valid_events.map eventDataDict) cont).1.successful = []) := by
  have hsub : ∀ (run : EventDict → Except PyError (Nat × String × String)) (ev : EventData),
      pipelineSubmit run (eventDataDict ev) = .error (.typeError c2Msg) := by
    intro run ev
    rfl
  have hmain : ∀ (run : EventDict → Except PyError (Nat × String × String))
      (events : List EventData) (cont : Bool),
      (upload_events (pipelineSubmit run) (events.map eventDataDict) cont).1.successful = [] ∧
      (∀ f ∈ (upload_events (pipelineSubmit run) (events.map eventDataDict) cont).1.failed,
          f.error = "Unexpected error: " ++ c2Msg) ∧
      (cont = true →
        (upload_events (pipelineSubmit run) (events.map eventDataDict) cont).1.failed.length =
          events.length) := by
    intro run events cont
    have hall : ∀ e ∈ events.map eventDataDict, pipelineSubmit run e = .error (.typeError c2Msg) := by
      intro e he
      obtain ⟨ev, _, rfl⟩ := List.mem_map.mp he
      exact hsub run ev
    obtain ⟨h1, h2, h3⟩ := uploadGo_const_error (pipelineSubmit run) c2Msg
      (events.map eventDataDict) cont 1 [] [] [] hall
    refine ⟨h1, ?_, ?_⟩
    · intro f hf
      rcases h2 f hf with hin | herr
      · cases hin
      · exact herr
    · intro hc
      rw [show (upload_events (pipelineSubmit run) (events.map eventDataDict) cont).1.failed =
          (uploadGo (pipelineSubmit run) cont (events.map eventDataDict) 1 [] [] []).2.1 from rfl,
        h3 hc]
      simp
  refine ⟨fun ev => rfl, hsub, by decide, hmain, ?_⟩
  intro lines skip res run cont _
  exact (hmain run res.valid_events cont).1

theorem pipeline_keyword_mismatch_witness :
    pipelineSubmit (fun _ => .ok (1, "u", "url")) (eventDataDict c4EvB) =
      .error (.typeError c2Msg) ∧
    (upload_events (pipelineSubmit (fun _ => .ok (1, "u", "url")))
        ([c4EvB, c4EvC].map eventDataDict) true).1.successful = [] ∧
    (upload_events (pipelineSubmit (fun _ => .ok (1, "u", "url")))
        ([c4EvB, c4EvC].map eventDataDict) true).1.failed.length = 2 := by
  refine ⟨pipeline_keyword_mismatch.2.1 _ c4EvB,
    (pipeline_keyword_mismatch.2.2.2.1 _ [c4EvB, c4EvC] true).1,
    (pipeline_keyword_mismatch.2.2.2.1 _ [c4EvB, c4EvC] true).2.2 rfl⟩

/-- The success entries contributed by a block of records that all submit
successfully, with 1-based indices counted from `idx`. -/
def okSubmits (submit : EventDict → Except PyError (Nat × String × String)) :
    Nat → List EventDict → List UploadSuccess
  | _, [] => []
  | idx, e :: rest =>
    (match submit e with
     | .ok (id, uuid, url) => [⟨eventDisplayName e idx, id, uuid, url⟩]
     | .error _ => []) ++ okSubmits submit (idx + 1) rest

lemma range1_concat (n : Nat) : ∀ s : Nat, List.range' s n ++ [s + n] = List.range' s (n + 1) := by
  induction n with
  | zero => intro s; simp [List.range']
  | succ n ih =>
    intro s
    have h1 : List.range' s (n + 1) = s :: List.range' (s + 1) n := rfl
    have h2 : List.range' s (n + 2) = s :: List.range' (s + 1) (n + 1) := rfl
    rw [h1, h2, List.cons_append, show s + (n + 1) = (s + 1) + n by omega, ih (s + 1)]

lemma uploadGo_attempts_all (submit : EventDict → Except PyError (Nat × String × String))
    (events : List EventDict) :
    ∀ (idx : Nat) (succ : List UploadSuccess) (fail : List UploadFailure) (att : List Nat),
    (uploadGo submit true events idx succ fail att).2.2 = att ++ List.range' idx events.length := by
  induction events with
  | nil => intro idx succ fail att; simp [uploadGo, List.range']
  | cons e rest ih =>
    intro idx succ fail att
    have hr : List.range' idx (e :: rest).length = idx :: List.range' (idx + 1) rest.length := rfl
    cases hres : submit e with
    | ok v =>
      obtain ⟨id, uuid, url⟩ := v
      have hgo : uploadGo submit true (e :: rest) idx succ fail att =
          uploadGo submit true rest (idx + 1) (succ ++ [⟨eventDisplayName e idx, id, uuid, url⟩])
            fail (att ++ [idx]) := by
        simp only [uploadGo, hres]
      rw [hgo, ih, hr]
      simp_all
    | error err =>
      have hgo : uploadGo submit true (e :: rest) idx succ fail att =
          uploadGo submit true rest (idx + 1) succ
            (fail ++ [⟨eventDisplayName e idx, failMessage err, idx⟩]) (att ++ [idx]) := by
        simp only [uploadGo, hres]
        rw [if_pos trivial]
      rw [hgo, ih, hr]
      simp

lemma uploadGo_outcome_count (submit : EventDict → Except PyError (Nat × String × String))
    (cont : Bool) (events : List EventDict) :
    ∀ (idx : Nat) (succ : List UploadSuccess) (fail : List UploadFailure) (att : List Nat),
    (uploadGo submit cont events idx succ fail att).1.length +
      (uploadGo submit cont events idx succ fail att).2.1.length + att.length =
    succ.length + fail.length + (uploadGo submit cont events idx succ fail att).2.2.length := by
  induction events with
  | nil => intro idx succ fail att; simp [uploadGo]
  | cons e rest ih =>
    intro idx succ fail att
    cases hres : submit e with
    | ok v =>
      obtain ⟨id, uuid, url⟩ := v
      have hgo : uploadGo submit cont (e :: rest) idx succ fail att =
          uploadGo submit cont rest (idx + 1) (succ ++ [⟨eventDisplayName e idx, id, uuid, url⟩])
            fail (att ++ [idx]) := by
        simp only [uploadGo, hres]
      rw [hgo]
      have := ih (idx + 1) (succ ++ [⟨eventDisplayName e idx, id, uuid, url⟩]) fail (att ++ [idx])
      simp only [List.length_append, List.length_cons, List.length_nil] at this ⊢
      omega
    | error err =>
      cases cont with
      | true =>
        have hgo : uploadGo submit true (e :: rest) idx succ fail att =
            uploadGo submit true rest (idx + 1) succ
              (fail ++ [⟨eventDisplayName e idx, failMessage err, idx⟩]) (att ++ [idx]) := by
          simp only [uploadGo, hres]
          rw [if_pos trivial]
        rw [hgo]
        have := ih (idx + 1) succ (fail ++ [⟨eventDisplayName e idx, failMessage err, idx⟩]) (att ++ [idx])
        simp only [List.length_append, List.length_cons, List.length_nil] at this ⊢
        omega
      | false =>
        have hgo : uploadGo submit false (e :: rest) idx succ fail att =
            (succ, fail ++ [⟨eventDisplayName e idx, failMessage err, idx⟩], att ++ [idx]) := by
          simp only [uploadGo, hres]
          rfl
        rw [hgo]
        simp only [List.length_append, List.length_cons, List.length_nil]
        omega

lemma uploadGo_prefix_ok (submit : EventDict → Except PyError (Nat × String × String))
    (cont : Bool) (pre : List EventDict) :
    ∀ (rest : List EventDict) (idx : Nat) (succ : List UploadSuccess)
      (fail : List UploadFailure) (att : List Nat),
    (∀ i (h : i < pre.length), exceptOk (submit (pre.get ⟨i, h⟩)) = true) →
    uploadGo submit cont (pre ++ rest) idx succ fail att =
      uploadGo submit cont rest (idx + pre.length) (succ ++ okSubmits submit idx pre) fail
        (att ++ List.range' idx pre.length) := by
  induction pre with
  | nil => intro rest idx succ fail att _; simp [okSubmits, List.range']
  | cons e pre ih =>
    intro rest idx succ fail att hall
    have h0 : exceptOk (submit e) = true := by simpa using hall 0 (by simp)
    cases hres : submit e with
    | error err =>
      rw [hres] at h0
      cases h0
    | ok v =>
      obtain ⟨id, uuid, url⟩ := v
      have hall2 : ∀ i (h : i < pre.length), exceptOk (submit (pre.get ⟨i, h⟩)) = true := by
        intro i h
        have h2 : i + 1 < (e :: pre).length := by simpa using Nat.succ_lt_succ h
        exact hall (i + 1) h2
      have hok : okSubmits submit idx (e :: pre) =
          ⟨eventDisplayName e idx, id, uuid, url⟩ :: okSubmits submit (idx + 1) pre := by
        simp only [okSubmits, hres, List.singleton_append]
      have hr : List.range' idx (e :: pre).length = idx :: List.range' (idx + 1) pre.length := rfl
      calc uploadGo submit cont ((e :: pre) ++ rest) idx succ fail att
          = uploadGo submit cont (pre ++ rest) (idx + 1)
              (succ ++ [⟨eventDisplayName e idx, id, uuid, url⟩]) fail (att ++ [idx]) := by
            simp only [List.cons_append, uploadGo, hres]
            rfl
        _ = uploadGo submit cont rest (idx + 1 + pre.length)
              ((succ ++ [⟨eventDisplayName e idx, id, uuid, url⟩]) ++ okSubmits submit (idx + 1) pre)
              fail ((att ++ [idx]) ++ List.range' (idx + 1) pre.length) :=
            ih rest (idx + 1) _ fail (att ++ [idx]) hall2
        _ = uploadGo submit cont rest (idx + (e :: pre).length)
              (succ ++ okSubmits submit idx (e :: pre)) fail
              (att ++ List.range' idx (e :: pre).length) := by
            rw [hok, hr, show idx + 1 + pre.length = idx + (e :: pre).length by
              simp only [List.length_cons]; omega]
            simp

lemma okSubmits_length_of_ok (submit : EventDict → Except PyError (Nat × String × String))
    (pre : List EventDict) :
    ∀ idx : Nat, (∀ i (h : i < pre.length), exceptOk (submit (pre.get ⟨i, h⟩)) = true) →
    (okSubmits submit idx pre).length = pre.length := by
  induction pre with
  | nil => intro idx _; rfl
  | cons e pre ih =>
    intro idx hall
    have h0 : exceptOk (submit e) = true := by simpa using hall 0 (by simp)
    cases hres : submit e with
    | error err => rw [hres] at h0; cases h0
    | ok v =>
      obtain ⟨id, uuid, url⟩ := v
      have hall2 : ∀ i (h : i < pre.length), exceptOk (submit (pre.get ⟨i, h⟩)) = true := by
        intro i h
        exact hall (i + 1) (by simpa using Nat.succ_lt_succ h)
      simp only [okSubmits, hres, List.singleton_append, List.length_cons]
      rw [ih (idx + 1) hall2]

def b1 : EventDict := [("event_name", PyValue.str "E1")]

def b2 : EventDict := [("event_name", PyValue.str "E2")]

def b3 : EventDict := [("event_name", PyValue.str "E3")]

/-- A submission client for the concrete three-record batch: records named
E1 and E3 succeed, record E2 fails with a retry-exhausted connection
error. -/
def batchSubmit (e : EventDict) : Except PyError (Nat × String × String) :=
  match (e.find? (fun p => p.1 = "event_name")).map Prod.snd with
  | some (.str "E2") => .error (.mispConnectionError "Failed after 3 attempts: timeout")
  | some (.str "E1") => .ok (1, "u1", "https://m/events/view/1")
  | _ => .ok (3, "u3", "https://m/events/view/3")

/-- Claim C7: the batch orchestrator calls the submission client once per
record, in input order (the attempted-index trace is exactly 1..n when
`continue_on_error` is true), captures every outcome as data (successes plus
failures equal attempts, and no exception escapes), stops right after the
first failure when `continue_on_error` is false (remaining records are not
attempted), returns the empty result for an empty batch, and on the concrete
3-record batch with record 2 failing yields exactly the claimed results for
both policies. -/
theorem upload_events_batch_policy :
    (∀ (submit : EventDict → Except PyError (Nat × String × String)) (cont : Bool),
        upload_events submit [] cont = (⟨0, [], []⟩, [])) ∧
    (∀ (submit : EventDict → Except PyError (Nat × String × String)) (events : List EventDict),
        (upload_events submit events true).2 = List.range' 1 events.length) ∧
    (∀ (submit : EventDict → Except PyError (Nat × String × String)) (events : List EventDict)
        (cont : Bool),
        (upload_events submit events cont).1.successful.length +
          (upload_events submit events cont).1.failed.length =
          (upload_events submit events cont).2.length) ∧
    (∀ (submit : EventDict → Except PyError (Nat × String × String)) (pre : List EventDict)
        (e : EventDict) (post : List EventDict) (err : PyError),
        (∀ i (h : i < pre.length), exceptOk (submit (pre.get ⟨i, h⟩)) = true) →
        submit e = .error err →
        (upload_events submit (pre ++ e :: post) false).2 = List.range' 1 (pre.length + 1) ∧
        (upload_events submit (pre ++ e :: post) false).1.successful.length = pre.length ∧
        (upload_events submit (pre ++ e :: post) false).1.failed.length = 1 ∧
        (upload_events submit (pre ++ e :: post) false).1.total = pre.length + 1 + post.length) ∧
    upload_events batchSubmit [b1, b2, b3] true =
      (⟨3, [⟨"E1", 1, "u1", "https://m/events/view/1"⟩, ⟨"E3", 3, "u3", "https://m/events/view/3"⟩],
          [⟨"E2", "Failed after 3 attempts: timeout", 2⟩]⟩, [1, 2, 3]) ∧
    upload_events batchSubmit [b1, b2, b3] false =
      (⟨3, [⟨"E1", 1, "u1", "https://m/events/view/1"⟩],
          [⟨"E2", "Failed after 3 attempts: timeout", 2⟩]⟩, [1, 2]) := by
  refine ⟨fun submit cont => rfl, ?_, ?_, ?_, by decide, by decide⟩
  · intro submit events
    simpa using uploadGo_attempts_all submit events 1 [] [] []
  · intro submit events cont
    have := uploadGo_outcome_count submit cont events 1 [] [] []
    simpa using this
  · intro submit pre e post err hpre he
    have hgo : uploadGo submit false (pre ++ e :: post) 1 [] [] [] =
        uploadGo submit false (e :: post) (1 + pre.length) ([] ++ okSubmits submit 1 pre) []
          ([] ++ List.range' 1 pre.length) :=
      uploadGo_prefix_ok submit false pre (e :: post) 1 [] [] [] hpre
    have hstep : uploadGo submit false (e :: post) (1 + pre.length)
        ([] ++ okSubmits submit 1 pre) [] ([] ++ List.range' 1 pre.length) =
        ([] ++ okSubmits submit 1 pre,
         [] ++ [⟨eventDisplayName e (1 + pre.length), failMessage err, 1 + pre.length⟩],
         ([] ++ List.range' 1 pre.length) ++ [1 + pre.length]) := by
      simp only [uploadGo, he]
      rfl
    have hfin : uploadGo submit false (pre ++ e :: post) 1 [] [] [] =
        (okSubmits submit 1 pre,
         [⟨eventDisplayName e (1 + pre.length), failMessage err, 1 + pre.length⟩],
         List.range' 1 pre.length ++ [1 + pre.length]) := by
      rw [hgo, hstep]
      simp
    refine ⟨?_, ?_, ?_, ?_⟩
    · show (uploadGo submit false (pre ++ e :: post) 1 [] [] []).2.2 = _
      rw [hfin]
      exact range1_concat pre.length 1
    · show (uploadGo submit false (pre ++ e :: post) 1 [] [] []).1.length = _
      rw [hfin]
      exact okSubmits_length_of_ok submit pre 1 hpre
    · show (uploadGo submit false (pre ++ e :: post) 1 [] [] []).2.1.length = _
      rw [hfin]
      rfl
    · show (pre ++ e :: post).length = _
      simp only [List.length_append, List.length_cons]
      omega

theorem upload_events_batch_policy_witness :
    upload_events batchSubmit [] true = (⟨0, [], []⟩, []) ∧
    (upload_events batchSubmit [b1, b2, b3] true).2 = List.range' 1 3 ∧
    ((upload_events batchSubmit ([b1] ++ b2 :: [b3]) false).2 = List.range' 1 2 ∧
      (upload_events batchSubmit ([b1] ++ b2 :: [b3]) false).1.successful.length = 1 ∧
      (upload_events batchSubmit ([b1] ++ b2 :: [b3]) false).1.failed.length = 1 ∧
      (upload_events batchSubmit ([b1] ++ b2 :: [b3]) false).1.total = 3) := by
  refine ⟨upload_events_batch_policy.1 batchSubmit true,
    upload_events_batch_policy.2.1 batchSubmit [b1, b2, b3], ?_⟩
  have h := upload_events_batch_policy.2.2.2.1 batchSubmit [b1] b2 [b3]
    (.mispConnectionError "Failed after 3 attempts: timeout")
    (by decide) (by decide)
  exact h

end MispDdos
